import Mathlib

/-!
Shallow embedding of the warm-transfer SIP service (an Express application,
`src/unnamed/part_000`).  Each HTTP handler and websocket callback is embedded
as a pure Lean function from its inputs (parsed request body, current state of
the three global correlation maps, and the outcomes of external provider calls)
to the updated state together with an ordered trace of the observable actions
the handler performs (store writes, provider REST requests, websocket sends,
log lines, the HTTP response).  JavaScript semantics that matter are modelled
explicitly: `Record<string, string | undefined>` lookups (a key set to
`undefined` behaves like an absent key), truthiness of strings (the empty
string is falsy), template-literal interpolation of `undefined`, and a `throw`
inside an `async` function producing a rejected promise rather than an
exception in the caller.
-/

namespace PSip

/-- Environment configuration, validated non-empty at startup
(`DOMAIN`, `OPENAI_API_KEY`, `OPENAI_PROJECT_ID`, `HUMAN_AGENT_NUMBER`). -/
structure Config where
  DOMAIN : String
  OPENAI_API_KEY : String
  OPENAI_PROJECT_ID : String
  HUMAN_AGENT_NUMBER : String
deriving DecidableEq, Repr

/-- A JavaScript `Record<string, string | undefined>`: later writes shadow
earlier ones, and a value may itself be `undefined` (`none`). -/
abbrev JsRecord := List (String × Option String)

/-- Reading `m[k]`: an absent key and a key stored with value `undefined`
both read as `undefined`. -/
def recGet (m : JsRecord) (k : String) : Option String :=
  (m.lookup k).bind id

/-- Writing `m[k] = v` (v may be `undefined`). -/
def recSet (m : JsRecord) (k : String) (v : Option String) : JsRecord :=
  (k, v) :: m

/-- JavaScript truthiness of a `string | undefined` value:
`undefined` and the empty string are falsy. -/
def truthy : Option String → Bool
  | none => false
  | some s => !(s == "")

/-- Template-literal interpolation: embedding `undefined` in a template
string yields the text "undefined". -/
def jsStr : Option String → String
  | none => "undefined"
  | some s => s

/-- The three process-wide correlation maps (module-level `var`s). -/
structure Store where
  callIDtoConferenceNameMapping : JsRecord
  ConferenceNametoCallerIDMapping : JsRecord
  ConferenceNametoCallTokenMapping : JsRecord
deriving DecidableEq, Repr

/-- Messages the service sends on the realtime websocket. -/
inductive WsOutMsg where
  /-- `conversation.item.create` with a synthetic user turn. -/
  | keepChatting (text : String)
  /-- A bare `response.create` with no instructions. -/
  | responseCreateEmpty
deriving DecidableEq, Repr

/-- Observable actions a handler performs, in program order.  Store writes are
recorded both here (for ordering properties) and in the returned `Store`. -/
inductive Action where
  | storeCallerID (conferenceName : String) (v : Option String)
  | storeCallToken (conferenceName : String) (v : Option String)
  | storeConfName (callId : String) (v : Option String)
  /-- Twilio `participants.create` request with its arguments. -/
  | participantCreate (conferenceName : String) (fromNum : Option String)
      (label : String) (toAddr : String) (earlyMedia : Bool)
      (callToken : Option String) (statusCallback : Option String)
  /-- The TwiML `<Dial><Conference>` document sent as the response body. -/
  | xmlResponse (conferenceName : String)
  /-- The `POST .../calls/{id}/accept` REST request. -/
  | acceptRequest (callId : String)
  /-- Deferred establishment of the realtime websocket for a call. -/
  | wsConnect (callId : String)
  /-- Twilio `participants.list` request on a conference. -/
  | listParticipants (conferenceSid : Option String)
  /-- Twilio call status update to `completed`. -/
  | terminateCall (callSid : String)
  | log (msg : String)
  | wsSend (msg : WsOutMsg)
  /-- A promise rejected inside a fire-and-forget `async` call that nobody
  awaits or catches: surfaces as an unhandled rejection, never as an
  exception in the invoking handler. -/
  | unhandledRejection (msg : String)
deriving DecidableEq, Repr

/-- `a` occurs at a strictly earlier position than `b` in the trace. -/
def occursBefore (a b : Action) (tr : List Action) : Prop :=
  ∃ i j, i < j ∧ tr.get? i = some a ∧ tr.get? j = some b

def isParticipantCreate : Action → Bool
  | .participantCreate .. => true
  | _ => false

def isTerminate : Action → Bool
  | .terminateCall _ => true
  | _ => false

def isLog : Action → Bool
  | .log _ => true
  | _ => false

/-! ## POST /incoming-call — Call Intake Controller -/

/-- Form-encoded webhook body (`Object.fromEntries(new URLSearchParams(raw))`);
each field may be absent. -/
structure IncomingCallBody where
  CallSid : Option String
  From : Option String
  CallToken : Option String
deriving DecidableEq, Repr

/-- `app.post("/incoming-call")`: derive `conferenceName` from `CallSid`,
record caller number and call token, fire `createParticipant()` without
awaiting it, and send the TwiML bridging document.  `participantOutcome` is
the eventual result of the un-awaited Twilio `participants.create` promise;
the handler has no `catch` for it, so a failure becomes an unhandled
rejection after the response has already been sent. -/
def incoming_call (cfg : Config) (st : Store) (body : IncomingCallBody)
    (participantOutcome : Except String Unit) : Store × List Action :=
  let conferenceName := jsStr body.CallSid
  let st1 : Store :=
    { st with
      ConferenceNametoCallerIDMapping :=
        recSet st.ConferenceNametoCallerIDMapping conferenceName body.From
      ConferenceNametoCallTokenMapping :=
        recSet st.ConferenceNametoCallTokenMapping conferenceName body.CallToken }
  let tr : List Action :=
    [ .storeCallerID conferenceName body.From,
      .storeCallToken conferenceName body.CallToken,
      .participantCreate conferenceName body.From "virtual agent"
        ("sip:" ++ cfg.OPENAI_PROJECT_ID
          ++ "@sip.api.openai.com;transport=tls?X-conferenceName=" ++ conferenceName)
        false body.CallToken
        (some ("https://" ++ cfg.DOMAIN ++ "/conference-events")),
      .xmlResponse conferenceName ]
  (st1, tr ++ match participantOutcome with
    | .error e => [.unhandledRejection e]
    | .ok _ => [])

/-! ## POST /conference-events — Conference Event Watcher -/

structure ConfEventBody where
  ParticipantLabel : Option String
  StatusCallbackEvent : Option String
  ConferenceSid : Option String
deriving DecidableEq, Repr

/-- One element of the Twilio `participants.list` result. -/
structure Participant where
  label : String
  callSid : String
deriving DecidableEq, Repr

/-- `app.post("/conference-events")`: on a `human agent` / `participant-join`
callback, list the conference participants and end the call of every one
labelled `virtual agent`.  `participants` is the provider response to the
list request.  The result is the action trace together with the HTTP response
status the handler sends — the source never calls any `res` method in this
handler, so the status component is always `none`. -/
def conference_events (body : ConfEventBody) (participants : List Participant) :
    List Action × Option Nat :=
  if body.ParticipantLabel == some "human agent"
      && body.StatusCallbackEvent == some "participant-join" then
    (Action.listParticipants body.ConferenceSid ::
      (participants.filter (fun p => p.label == "virtual agent")).flatMap
        (fun p => [Action.terminateCall p.callSid, Action.log "Virtual agent call ended."]),
      none)
  else
    ([], none)

/-! ## POST / — AI Session Acceptor -/

/-- One entry of the `sip_headers` array on the incoming-call event. -/
structure SipHeader where
  name : String
  value : String
deriving DecidableEq, Repr

/-- The unwrapped AI-provider webhook event: a `realtime.call.incoming` event
with its `call_id` and `sip_headers` (`none` when the field is not an array),
or any other event type. -/
inductive AiEvent where
  | incoming (call_id : String) (sip_headers : Option (List SipHeader))
  | other (type : String)
deriving DecidableEq, Repr

/-- Result of `openAiClient.webhooks.unwrap`: the event, or a thrown
`InvalidWebhookSignatureError`, or some other thrown error. -/
inductive UnwrapResult where
  | ok (event : AiEvent)
  | invalidSignature
  | otherError (msg : String)
deriving DecidableEq, Repr

/-- Outcome of the `fetch` to the accept endpoint (`resp.ok`, or not, with
status and body text). -/
inductive AcceptResult where
  | ok
  | failed (status : Nat) (body : String)
deriving DecidableEq, Repr

/-- The HTTP response the handler returns to the webhook sender. -/
structure HttpResponse where
  status : Nat
  /-- Value of the `Authorization` response header, when the handler sets one. -/
  authHeader : Option String
  body : Option String
deriving DecidableEq, Repr

/-- `sipHeaders.find(h => h.name === "X-conferenceName")?.value` guarded by
`Array.isArray`. -/
def findConferenceName (sip_headers : Option (List SipHeader)) : Option String :=
  match sip_headers with
  | some hs => (hs.find? (fun h => h.name == "X-conferenceName")).map (·.value)
  | none => none

/-- `app.post("/")`: unwrap the signed webhook; on a `realtime.call.incoming`
event, record `call_id → conferenceName`, issue the accept REST call (500 on
failure), then schedule the websocket connection and acknowledge with 200,
setting an `Authorization: Bearer <OPENAI_API_KEY>` response header.  Any
other event type is acknowledged with 200.  A signature failure is answered
with 400 and any other unwrap error with 500. -/
def root_post (cfg : Config) (st : Store) (unwrap : UnwrapResult)
    (accept : AcceptResult) : Store × List Action × HttpResponse :=
  match unwrap with
  | .invalidSignature => (st, [], ⟨400, none, some "Invalid signature"⟩)
  | .otherError _ => (st, [], ⟨500, none, some "Server error"⟩)
  | .ok (.other _) => (st, [], ⟨200, none, none⟩)
  | .ok (.incoming callId sipHeaders) =>
    let foundConferenceName := findConferenceName sipHeaders
    let st1 : Store :=
      { st with callIDtoConferenceNameMapping :=
          recSet st.callIDtoConferenceNameMapping callId foundConferenceName }
    let pre : List Action :=
      [ .storeConfName callId foundConferenceName, .acceptRequest callId ]
    match accept with
    | .failed status body =>
        (st1, pre ++ [.log ("ACCEPT failed: " ++ toString status ++ " " ++ body)],
          ⟨500, none, some "Accept failed"⟩)
    | .ok =>
        (st1, pre ++ [.wsConnect callId],
          ⟨200, some ("Bearer " ++ cfg.OPENAI_API_KEY), none⟩)

/-! ## Realtime Transport Session — websocket message handling -/

/-- The websocket URI, reduced to what the handler reads from it:
`new URL(uri).searchParams`. -/
structure WsUri where
  queryParams : List (String × String)
deriving DecidableEq, Repr

/-- `url.searchParams.get(k)`: `null` (`none`) when the parameter is absent. -/
def searchParamsGet (u : WsUri) (k : String) : Option String :=
  u.queryParams.lookup k

/-- The first output item of a `response.done` event, as the fields the
handler reads (`output.type`, `output.name`, `output.call_id`). -/
structure OutputItem where
  type : String
  name : String
  call_id : Option String
deriving DecidableEq, Repr

/-- An inbound realtime websocket message: either text that fails
`JSON.parse`, or a parsed event with its `type` and the
`response.output` array (empty when absent). -/
inductive RtMessage where
  | malformed (raw : String)
  | event (type : String) (output : List OutputItem)
deriving DecidableEq, Repr

/-- The literal synthetic user-turn text sent while waiting for the human. -/
def KEEP_CHATTING_TEXT : String :=
  "While we wait for the human agent, keep chatting with the user or ask if theres anything you can help with while they wait."

/-- `addHuman(openAiCallId)`: resolve the conference name (a falsy value —
absent, stored-undefined or empty — aborts with a log), look up the call
token and caller id, and issue the Twilio `participants.create` for the human
leg.  The `from`/`callToken` arguments use `?? (() => { throw ... })()`, so a
missing caller id or token throws during argument evaluation — before any
request is issued — and, this being an `async` function invoked without
`await`, the throw is returned as a promise rejection (second component),
never as an exception in the caller. -/
def addHuman (cfg : Config) (st : Store) (openAiCallId : String) :
    List Action × Option String :=
  match recGet st.callIDtoConferenceNameMapping openAiCallId with
  | none => ([.log "Conference name is undefined for call ID:"], none)
  | some conferenceName =>
    if conferenceName == "" then
      ([.log "Conference name is undefined for call ID:"], none)
    else
      let callToken := recGet st.ConferenceNametoCallTokenMapping conferenceName
      let callerID := recGet st.ConferenceNametoCallerIDMapping conferenceName
      let logLine := Action.log ("Adding human to conference: " ++ conferenceName)
      match callerID with
      | none => ([logLine], some "CallerID is not defined")
      | some cid =>
        match callToken with
        | none => ([logLine], some "CallToken is not defined")
        | some tok =>
          ([logLine,
            .participantCreate conferenceName (some cid) "human agent"
              cfg.HUMAN_AGENT_NUMBER false (some tok) none], none)

/-- `handleFunctionCall(output, uri)`: when the first output item is a
`function_call` named `addHumanAgent` with a truthy `call_id`, extract the
call id from the websocket URI (logging when it is falsy, otherwise invoking
`addHuman` fire-and-forget) and then unconditionally send the keep-chatting
user turn and an empty `response.create`.  A rejection from `addHuman`
surfaces later as an unhandled rejection. -/
def handleFunctionCall (cfg : Config) (st : Store) (output : OutputItem)
    (uri : WsUri) : List Action :=
  if output.type == "function_call" && output.name == "addHumanAgent"
      && truthy output.call_id then
    let extractedCallId := searchParamsGet uri "call_id"
    let addRes : List Action × Option String :=
      match extractedCallId with
      | some cid =>
        if cid == "" then ([.log "Call ID is null, cannot add human agent."], none)
        else addHuman cfg st cid
      | none => ([.log "Call ID is null, cannot add human agent."], none)
    addRes.1
      ++ [.wsSend (.keepChatting KEEP_CHATTING_TEXT), .wsSend .responseCreateEmpty]
      ++ (match addRes.2 with
          | some e => [.unhandledRejection e]
          | none => [])
  else []

/-- The body of the `try` block in `ws.on("message")`: `JSON.parse` (an
`Except.error` on malformed text) followed by the `response.done` dispatch on
the first output item. -/
def wsOnMessageCore (cfg : Config) (st : Store) (uri : WsUri) (msg : RtMessage) :
    Except String (List Action) :=
  match msg with
  | .malformed raw => .error raw
  | .event t output =>
    if t == "response.done" then
      match output.head? with
      | some o => .ok (handleFunctionCall cfg st o uri)
      | none => .ok []
    else .ok []

/-- `ws.on("message")` in full: the surrounding `try`/`catch` turns a parse
error into a log line, so the listener itself never throws and the session
continues. -/
def wsOnMessage (cfg : Config) (st : Store) (uri : WsUri) (msg : RtMessage) :
    List Action :=
  match wsOnMessageCore cfg st uri msg with
  | .ok tr => tr
  | .error raw => [.log ("Error processing OpenAI message: Raw message: " ++ raw)]

/-! ## Concrete fixtures (the literal scenario of the spec) -/

def cfgEx : Config :=
  ⟨"example.ngrok.io", "sk-test-key", "proj_test", "+15551112222"⟩

def stEmpty : Store := ⟨[], [], []⟩

/-- Store state after the literal spec scenario: inbound call `CA123` from
`+15551230000` with token `TOK1`, then AI accept of `RTC1` for conference
`CA123`. -/
def stScenario : Store :=
  ⟨[("RTC1", some "CA123")],
   [("CA123", some "+15551230000")],
   [("CA123", some "TOK1")]⟩

def uriEx : WsUri := ⟨[("call_id", "RTC1")]⟩

/-- A `response.done` event whose first output item requests the hand-off. -/
def handoffMsg : RtMessage :=
  .event "response.done" [⟨"function_call", "addHumanAgent", some "fc1"⟩]

end PSip

/-! ## Theorems -/

namespace PSip

theorem recGet_recSet (m : JsRecord) (k : String) (v : Option String) :
    recGet (recSet m k v) k = v := by
  simp [recGet, recSet, List.lookup]

theorem recGet_recSet_ne (m : JsRecord) (k k' : String) (v : Option String)
    (h : k' ≠ k) : recGet (recSet m k v) k' = recGet m k' := by
  simp only [recGet, recSet, List.lookup]
  rw [beq_eq_false_iff_ne.mpr h]

/-- C1: for an inbound-call webhook carrying `CallSid`, `From` and `CallToken`,
the conference name is exactly the `CallSid`; the `conferenceName → From` and
`conferenceName → CallToken` entries are present in the resulting store and
both store writes occur in the trace strictly before the XML call-control
response is sent. -/
theorem C1_intake_correlation_before_response (cfg : Config) (st : Store)
    (sid fromN tok : String) (outcome : Except String Unit) :
    let res := incoming_call cfg st ⟨some sid, some fromN, some tok⟩ outcome
    (Action.xmlResponse sid ∈ res.2)
    ∧ recGet res.1.ConferenceNametoCallerIDMapping sid = some fromN
    ∧ recGet res.1.ConferenceNametoCallTokenMapping sid = some tok
    ∧ occursBefore (.storeCallerID sid (some fromN)) (.xmlResponse sid) res.2
    ∧ occursBefore (.storeCallToken sid (some tok)) (.xmlResponse sid) res.2 := by
  refine ⟨?_, ?_, ?_, ⟨0, 3, by omega, rfl, rfl⟩, ⟨1, 3, by omega, rfl, rfl⟩⟩
  · show Action.xmlResponse sid ∈ _
    simp [incoming_call, jsStr]
  · exact recGet_recSet _ _ _
  · exact recGet_recSet _ _ _

/-- C3: for an AI-accept webhook of type `realtime.call.incoming`, the
`call_id → conferenceName` entry is in the store the handler commits, the
store-write action precedes the accept REST request in the trace for every
accept outcome, and on the success path it also precedes the deferred
websocket establishment (the only path on which the websocket is connected
at all). -/
theorem C3_correlation_committed_before_accept_and_connect (cfg : Config)
    (st : Store) (callId : String) (hs : Option (List SipHeader))
    (accept : AcceptResult) :
    recGet (root_post cfg st (.ok (.incoming callId hs)) accept).1.callIDtoConferenceNameMapping
        callId = findConferenceName hs
    ∧ occursBefore (.storeConfName callId (findConferenceName hs))
        (.acceptRequest callId)
        (root_post cfg st (.ok (.incoming callId hs)) accept).2.1
    ∧ occursBefore (.storeConfName callId (findConferenceName hs))
        (.wsConnect callId)
        (root_post cfg st (.ok (.incoming callId hs)) AcceptResult.ok).2.1 := by
  refine ⟨?_, ?_, ⟨0, 2, by omega, rfl, rfl⟩⟩
  · cases accept <;> exact recGet_recSet _ _ _
  · cases accept <;> exact ⟨0, 1, by omega, rfl, rfl⟩

/-- C4: a conference status callback labelled `human agent` for a
`participant-join` event, on a conference whose participant list holds
exactly one participant labelled `virtual agent`, produces exactly one
call-termination request, aimed at that participant's call; any callback
with a different label or event produces no provider request at all. -/
theorem C4_human_join_terminates_unique_virtual_agent (body : ConfEventBody)
    (parts : List Participant) (p : Participant)
    (hl : body.ParticipantLabel = some "human agent")
    (he : body.StatusCallbackEvent = some "participant-join")
    (hp : parts.filter (fun q => q.label == "virtual agent") = [p]) :
    (conference_events body parts).1.filter isTerminate = [.terminateCall p.callSid]
    ∧ ∀ (body2 : ConfEventBody) (parts2 : List Participant),
        (body2.ParticipantLabel ≠ some "human agent"
          ∨ body2.StatusCallbackEvent ≠ some "participant-join") →
        (conference_events body2 parts2).1 = [] := by
  constructor
  · simp only [conference_events, hl, he, hp]
    simp [isTerminate]
  · intro body2 parts2 h2
    simp only [conference_events]
    rcases h2 with h2 | h2
    · rw [if_neg]
      simp [h2]
    · rw [if_neg]
      simp [h2]

/-- C6: the `/conference-events` handler never sends any HTTP response —
no `res` method is called on any path, so in particular it does not respond
with HTTP 200 as the spec states. -/
theorem C6_conference_events_sends_no_response (body : ConfEventBody)
    (parts : List Participant) :
    (conference_events body parts).2 = none := by
  unfold conference_events
  split <;> rfl

/-- C7: the `POST /` response status is 400 on a signature-verification
failure (with no processing: empty trace and unchanged store), 500 on a
failed accept REST call (after logging its status and body), and 200 on a
successfully handled incoming-call event as well as on any unrecognized
event type. -/
theorem C7_root_status_mapping (cfg : Config) (st : Store) :
    (∀ accept : AcceptResult,
        (root_post cfg st .invalidSignature accept).2.2.status = 400
        ∧ (root_post cfg st .invalidSignature accept).2.1 = []
        ∧ (root_post cfg st .invalidSignature accept).1 = st)
    ∧ (∀ (callId : String) (hs : Option (List SipHeader)) (status : Nat) (b : String),
        (root_post cfg st (.ok (.incoming callId hs)) (.failed status b)).2.2.status = 500
        ∧ Action.log ("ACCEPT failed: " ++ toString status ++ " " ++ b)
            ∈ (root_post cfg st (.ok (.incoming callId hs)) (.failed status b)).2.1)
    ∧ (∀ (callId : String) (hs : Option (List SipHeader)),
        (root_post cfg st (.ok (.incoming callId hs)) AcceptResult.ok).2.2.status = 200)
    ∧ (∀ (t : String) (accept : AcceptResult),
        (root_post cfg st (.ok (.other t)) accept).2.2.status = 200) := by
  refine ⟨fun accept => ⟨rfl, rfl, rfl⟩, fun callId hs status b => ⟨rfl, ?_⟩,
    fun callId hs => rfl, fun t accept => rfl⟩
  simp [root_post]

/-- C9: the 200 acknowledgment of a successfully accepted incoming-call
webhook carries `Authorization: Bearer <OPENAI_API_KEY>` as a response
header, echoing the API key verbatim to the webhook sender. -/
theorem C9_ack_carries_api_key_in_auth_header (cfg : Config) (st : Store)
    (callId : String) (hs : Option (List SipHeader)) :
    (root_post cfg st (.ok (.incoming callId hs)) AcceptResult.ok).2.2 =
      ⟨200, some ("Bearer " ++ cfg.OPENAI_API_KEY), none⟩ := rfl

/-- C5 counterexample: on the literal spec scenario with a failing
participant-creation request, the intake handler emits no log action at all —
`createParticipant()` has no `catch`, so the failure is not logged; it
surfaces only as an unhandled promise rejection. -/
theorem C5_counterexample_failure_not_logged :
    ((incoming_call cfgEx stEmpty ⟨some "CA123", some "+15551230000", some "TOK1"⟩
        (Except.error "participant create failed")).2.any isLog = false)
    ∧ Action.unhandledRejection "participant create failed"
        ∈ (incoming_call cfgEx stEmpty ⟨some "CA123", some "+15551230000", some "TOK1"⟩
            (Except.error "participant create failed")).2 := by
  constructor
  · decide
  · simp [incoming_call, cfgEx, stEmpty, jsStr]

/-- C5 (amended): the asynchronous AI-leg participant-creation request is not
awaited and has no failure handler — the handler emits no log action on any
outcome and a failure surfaces as an unhandled promise rejection — while the
caller-bridging XML response is returned regardless of, and without waiting
on, that request's outcome. -/
theorem C5_response_not_blocked_failure_unlogged (cfg : Config) (st : Store)
    (body : IncomingCallBody) (outcome : Except String Unit) :
    Action.xmlResponse (jsStr body.CallSid) ∈ (incoming_call cfg st body outcome).2
    ∧ (incoming_call cfg st body outcome).2.any isLog = false
    ∧ ∀ e : String, outcome = Except.error e →
        Action.unhandledRejection e ∈ (incoming_call cfg st body outcome).2 := by
  refine ⟨?_, ?_, ?_⟩
  · cases outcome <;> simp [incoming_call]
  · cases outcome <;> simp [incoming_call, isLog]
  · intro e he
    subst he
    simp [incoming_call]

/-- Helper: when the correlation data for a call id is incomplete — no
conference name, or a conference name whose caller id or call token is
missing — `addHuman` issues no `participants.create` request. -/
theorem addHuman_no_request_of_missing (cfg : Config) (st : Store) (cid : String)
    (habs : recGet st.callIDtoConferenceNameMapping cid = none
      ∨ ∃ c, recGet st.callIDtoConferenceNameMapping cid = some c
          ∧ (recGet st.ConferenceNametoCallerIDMapping c = none
             ∨ recGet st.ConferenceNametoCallTokenMapping c = none)) :
    (addHuman cfg st cid).1.any isParticipantCreate = false := by
  rcases habs with h | ⟨c, hc, hor⟩
  · simp [addHuman, h, isParticipantCreate]
  · simp only [addHuman, hc]
    by_cases hc0 : c = ""
    · simp [hc0, isParticipantCreate]
    · rw [if_neg (by simp [hc0])]
      rcases hor with hcaller | htok
      · simp [hcaller, isParticipantCreate]
      · cases hcall : recGet st.ConferenceNametoCallerIDMapping c with
        | none => simp [hcall, isParticipantCreate]
        | some cid2 => simp [hcall, htok, isParticipantCreate]

/-- C2: for a detected hand-off function call whose call id resolves from the
transport URI, if the `call_id → conferenceName` entry is absent, or the
caller number or call token for that conference is absent, then the message
handler returns normally (`Except.ok` — the `async` throw is a promise
rejection, not an exception escaping the listener) and its trace contains no
human-participant creation request. -/
theorem C2_missing_correlation_aborts_handoff (cfg : Config) (st : Store)
    (uri : WsUri) (fcid cid : String) (rest : List OutputItem)
    (hfc : fcid ≠ "")
    (hext : searchParamsGet uri "call_id" = some cid) (hcid : cid ≠ "")
    (habs : recGet st.callIDtoConferenceNameMapping cid = none
      ∨ ∃ c, recGet st.callIDtoConferenceNameMapping cid = some c
          ∧ (recGet st.ConferenceNametoCallerIDMapping c = none
             ∨ recGet st.ConferenceNametoCallTokenMapping c = none)) :
    ∃ tr, wsOnMessageCore cfg st uri
        (.event "response.done" (⟨"function_call", "addHumanAgent", some fcid⟩ :: rest))
        = .ok tr
      ∧ tr.any isParticipantCreate = false := by
  refine ⟨handleFunctionCall cfg st ⟨"function_call", "addHumanAgent", some fcid⟩ uri,
    by simp [wsOnMessageCore], ?_⟩
  rw [handleFunctionCall]
  rw [if_pos (by simp [truthy, hfc])]
  simp only [hext]
  rw [if_neg (by simp [hcid])]
  simp only [List.any_append, Bool.or_eq_false_iff]
  refine ⟨⟨addHuman_no_request_of_missing cfg st cid habs, rfl⟩, ?_⟩
  cases (addHuman cfg st cid).2 <;> simp [isParticipantCreate]

/-- C8: a websocket message that fails JSON parsing yields only a log line
(the listener's `try`/`catch` keeps the session alive); an event that is not
`response.done`, or has no first output item, yields no action at all; and
any message producing actions is necessarily a `response.done` whose first
output item is a `function_call` named `addHumanAgent` with a truthy
`call_id`. -/
theorem C8_non_matching_messages_inert (cfg : Config) (st : Store) (uri : WsUri) :
    (∀ raw : String, wsOnMessage cfg st uri (.malformed raw)
        = [.log ("Error processing OpenAI message: Raw message: " ++ raw)])
    ∧ (∀ (t : String) (out : List OutputItem), t ≠ "response.done" →
        wsOnMessage cfg st uri (.event t out) = [])
    ∧ (∀ t : String, wsOnMessage cfg st uri (.event t []) = [])
    ∧ (∀ (t : String) (out : List OutputItem),
        wsOnMessage cfg st uri (.event t out) ≠ [] →
        t = "response.done" ∧ ∃ o rest, out = o :: rest
          ∧ o.type = "function_call" ∧ o.name = "addHumanAgent"
          ∧ truthy o.call_id = true) := by
  refine ⟨fun raw => rfl, ?_, ?_, ?_⟩
  · intro t out ht
    simp [wsOnMessage, wsOnMessageCore, ht]
  · intro t
    by_cases ht : t = "response.done"
    · subst ht; rfl
    · simp [wsOnMessage, wsOnMessageCore, ht]
  · intro t out hne
    by_cases ht : t = "response.done"
    · subst ht
      refine ⟨rfl, ?_⟩
      cases out with
      | nil => exact absurd rfl hne
      | cons o rest =>
        refine ⟨o, rest, rfl, ?_⟩
        by_cases hb : (o.type == "function_call" && o.name == "addHumanAgent"
            && truthy o.call_id) = true
        · simp only [Bool.and_eq_true, beq_iff_eq] at hb
          exact ⟨hb.1.1, hb.1.2, hb.2⟩
        · exact absurd (by simp [wsOnMessage, wsOnMessageCore, handleFunctionCall, hb]) hne
    · exact absurd (by simp [wsOnMessage, wsOnMessageCore, ht]) hne

/-- C10: for a `response.done` whose first output item is a `function_call`
named `addHumanAgent` with a truthy `call_id`, the two engagement
instructions — the synthetic keep-chatting user turn and the empty
`response.create` — are always sent, including when the transport URI has no
truthy `call_id` query parameter or when the correlation lookup fails, in
which cases no human-participant request is issued. -/
theorem C10_engagement_sends_unconditional (cfg : Config) (st : Store)
    (uri : WsUri) (fcid : String) (rest : List OutputItem) (hfc : fcid ≠ "") :
    (Action.wsSend (.keepChatting KEEP_CHATTING_TEXT) ∈ wsOnMessage cfg st uri
        (.event "response.done" (⟨"function_call", "addHumanAgent", some fcid⟩ :: rest)))
    ∧ (Action.wsSend .responseCreateEmpty ∈ wsOnMessage cfg st uri
        (.event "response.done" (⟨"function_call", "addHumanAgent", some fcid⟩ :: rest)))
    ∧ (truthy (searchParamsGet uri "call_id") = false →
        (wsOnMessage cfg st uri
          (.event "response.done" (⟨"function_call", "addHumanAgent", some fcid⟩ :: rest))).any
            isParticipantCreate = false)
    ∧ (∀ cid : String, searchParamsGet uri "call_id" = some cid → cid ≠ "" →
        recGet st.callIDtoConferenceNameMapping cid = none →
        (wsOnMessage cfg st uri
          (.event "response.done" (⟨"function_call", "addHumanAgent", some fcid⟩ :: rest))).any
            isParticipantCreate = false) := by
  have hw : wsOnMessage cfg st uri
      (.event "response.done" (⟨"function_call", "addHumanAgent", some fcid⟩ :: rest))
      = handleFunctionCall cfg st ⟨"function_call", "addHumanAgent", some fcid⟩ uri := rfl
  refine ⟨?_, ?_, ?_, ?_⟩
  · rw [hw, handleFunctionCall, if_pos (by simp [truthy, hfc])]
    simp [List.mem_append]
  · rw [hw, handleFunctionCall, if_pos (by simp [truthy, hfc])]
    simp [List.mem_append]
  · intro h
    rw [hw, handleFunctionCall, if_pos (by simp [truthy, hfc])]
    cases hE : searchParamsGet uri "call_id" with
    | none => simp [hE, isParticipantCreate]
    | some s =>
      rw [hE] at h
      have hs : s = "" := by
        by_contra hs
        simp [truthy, hs] at h
      subst hs
      simp [hE, isParticipantCreate]
  · intro cid hE hne hnone
    rw [hw, handleFunctionCall, if_pos (by simp [truthy, hfc])]
    simp only [hE]
    rw [if_neg (by simp [hne])]
    simp only [List.any_append, Bool.or_eq_false_iff]
    refine ⟨⟨addHuman_no_request_of_missing cfg st cid (Or.inl hnone), rfl⟩, ?_⟩
    cases (addHuman cfg st cid).2 <;> simp [isParticipantCreate]

/-! ## Witnesses: the theorems above applied at concrete inputs -/

/-- C2 at a concrete input: empty store, so the `RTC1` correlation entry is
absent; the hand-off aborts with no participant request and no escaping
exception. -/
theorem C2_witness :
    searchParamsGet uriEx "call_id" = some "RTC1"
    ∧ recGet stEmpty.callIDtoConferenceNameMapping "RTC1" = none
    ∧ ∃ tr, wsOnMessageCore cfgEx stEmpty uriEx
        (.event "response.done" (⟨"function_call", "addHumanAgent", some "fc1"⟩ :: []))
        = .ok tr ∧ tr.any isParticipantCreate = false :=
  ⟨rfl, rfl,
    C2_missing_correlation_aborts_handoff cfgEx stEmpty uriEx "fc1" "RTC1" []
      (by decide) rfl (by decide) (Or.inl rfl)⟩

/-- C4 at a concrete input: a two-participant conference (customer and
virtual agent) and a human-agent join callback yield exactly one termination
request, for the virtual agent's call. -/
theorem C4_witness :
    ([⟨"customer", "CA111"⟩, ⟨"virtual agent", "CA222"⟩] : List Participant).filter
        (fun q => q.label == "virtual agent") = [⟨"virtual agent", "CA222"⟩]
    ∧ (conference_events ⟨some "human agent", some "participant-join", some "CF1"⟩
        [⟨"customer", "CA111"⟩, ⟨"virtual agent", "CA222"⟩]).1.filter isTerminate
        = [.terminateCall "CA222"] :=
  ⟨by decide,
    (C4_human_join_terminates_unique_virtual_agent
      ⟨some "human agent", some "participant-join", some "CF1"⟩
      [⟨"customer", "CA111"⟩, ⟨"virtual agent", "CA222"⟩]
      ⟨"virtual agent", "CA222"⟩ rfl rfl (by decide)).1⟩

/-- C5 (amended) at a concrete input: with a failing participant-creation
outcome the XML response is still in the trace and the failure surfaces as an
unhandled rejection. -/
theorem C5_witness :
    Action.xmlResponse "CA123" ∈ (incoming_call cfgEx stEmpty
        ⟨some "CA123", some "+15551230000", some "TOK1"⟩ (Except.error "boom")).2
    ∧ Action.unhandledRejection "boom" ∈ (incoming_call cfgEx stEmpty
        ⟨some "CA123", some "+15551230000", some "TOK1"⟩ (Except.error "boom")).2 :=
  ⟨(C5_response_not_blocked_failure_unlogged cfgEx stEmpty
      ⟨some "CA123", some "+15551230000", some "TOK1"⟩ (Except.error "boom")).1,
   (C5_response_not_blocked_failure_unlogged cfgEx stEmpty
      ⟨some "CA123", some "+15551230000", some "TOK1"⟩ (Except.error "boom")).2.2
      "boom" rfl⟩

/-- C8 at concrete inputs: an unrelated event type yields no action; a
malformed message yields only the log line. -/
theorem C8_witness :
    wsOnMessage cfgEx stEmpty uriEx (.event "session.updated" []) = []
    ∧ wsOnMessage cfgEx stEmpty uriEx (.malformed "not json")
        = [.log ("Error processing OpenAI message: Raw message: " ++ "not json")] :=
  ⟨(C8_non_matching_messages_inert cfgEx stEmpty uriEx).2.1 "session.updated" []
      (by decide),
   (C8_non_matching_messages_inert cfgEx stEmpty uriEx).1 "not json"⟩

/-- C10 at a concrete input: on the empty store the correlation lookup for
`RTC1` fails, yet the keep-chatting send is in the trace and no participant
request is. -/
theorem C10_witness :
    Action.wsSend (.keepChatting KEEP_CHATTING_TEXT)
      ∈ wsOnMessage cfgEx stEmpty uriEx handoffMsg
    ∧ (wsOnMessage cfgEx stEmpty uriEx handoffMsg).any isParticipantCreate = false :=
  ⟨(C10_engagement_sends_unconditional cfgEx stEmpty uriEx "fc1" [] (by decide)).1,
   (C10_engagement_sends_unconditional cfgEx stEmpty uriEx "fc1" [] (by decide)).2.2.2
      "RTC1" rfl (by decide) rfl⟩

end PSip
